import Mathlib

/-
Shallow embedding of the spinning text-cube renderer (src/main.rs) and
verification of its specification.

Modelling conventions:
* `f32` values are embedded as exact rationals (`ℚ`) for the parts of the
  pipeline that are settled by concrete computation, and as reals (`ℝ`) for
  the parts that involve `cos`/`sin` at an arbitrary tick.  The shared
  definitions are polymorphic over a `LinearOrderedField` with a `FloorRing`
  structure so that both instantiations use literally the same code.
* The frame buffer `[[u8; SCREEN_WIDTH]; SCREEN_HEIGHT]` is a function
  `Fin SCREEN_HEIGHT → Fin SCREEN_WIDTH → ℕ` holding byte values
  (`b' ' = 32`, `b'|' = 124`, `b'-' = 45`).
* An out-of-bounds write `frame[iy][ix] = b` panics in Rust; the embedding
  returns `Option`, with `none` for the panic.
* Rust's saturating `as usize` cast of a nonnegative float is `Int.toNat` of
  the floor; for negative inputs both give 0.
-/

namespace SpinCube

/-- SCREEN_WIDTH from the source: the frame is 80 characters wide. -/
def SCREEN_WIDTH : ℕ := 80

/-- SCREEN_HEIGHT from the source: the frame is 40 characters tall. -/
def SCREEN_HEIGHT : ℕ := 40

/-- struct Vector([f32; 4]): a 4-component homogeneous vector. -/
abbrev Vector4 (α : Type) : Type := Fin 4 → α

/-- struct Matrix([[f32; 4]; 4]): four rows of four components. -/
abbrev Matrix4 (α : Type) : Type := Fin 4 → Vector4 α

/-- Builds a 4-vector from its components. -/
def vec4 {α : Type} (x y z w : α) : Vector4 α := ![x, y, z, w]

/-- Builds a 4×4 matrix from its four stored rows. -/
def mat4 {α : Type} (r0 r1 r2 r3 : Vector4 α) : Matrix4 α := ![r0, r1, r2, r3]

/-- VERTICES from the source: the 8 corners of the cube in object space,
with homogeneous coordinate 1. -/
def VERTICES {α : Type} [LinearOrderedField α] : Fin 8 → Vector4 α :=
  ![vec4 (-1) (-1) (-1) 1,
    vec4 (-1) (-1)   1  1,
    vec4   1  (-1) (-1) 1,
    vec4   1  (-1)   1  1,
    vec4 (-1)   1  (-1) 1,
    vec4 (-1)   1    1  1,
    vec4   1    1  (-1) 1,
    vec4   1    1    1  1]

/-- FACES from the source: each face is four vertex indices. -/
def FACES : Fin 6 → Fin 4 → Fin 8 :=
  ![![1, 5, 7, 3],
    ![3, 7, 6, 2],
    ![0, 4, 5, 1],
    ![2, 6, 4, 0],
    ![0, 1, 3, 2],
    ![5, 4, 6, 7]]

/-- fn matrix_times_vector: the product is the weighted sum of the stored
rows, with the vector components as the weights
(`x * mx[k] + y * my[k] + z * mz[k] + w * mw[k]`). -/
def matrix_times_vector {α : Type} [LinearOrderedField α]
    (m : Matrix4 α) (v : Vector4 α) : Vector4 α :=
  fun k => v 0 * m 0 k + v 1 * m 1 k + v 2 * m 2 k + v 3 * m 3 k

/-- OFFSET_X = SCREEN_WIDTH as f32 * 0.5. -/
def OFFSET_X {α : Type} [LinearOrderedField α] : α := (SCREEN_WIDTH : α) * (1 / 2)

/-- OFFSET_Y = SCREEN_HEIGHT as f32 * 0.5. -/
def OFFSET_Y {α : Type} [LinearOrderedField α] : α := (SCREEN_HEIGHT : α) * (1 / 2)

/-- SCALE_X = SCREEN_WIDTH as f32 * 0.5. -/
def SCALE_X {α : Type} [LinearOrderedField α] : α := (SCREEN_WIDTH : α) * (1 / 2)

/-- SCALE_Y = SCREEN_HEIGHT as f32 * 0.5. -/
def SCALE_Y {α : Type} [LinearOrderedField α] : α := (SCREEN_HEIGHT : α) * (1 / 2)

/-- The background byte `b' '`. -/
def bg : ℕ := 32

/-- The vertical-line glyph `b'|'`. -/
def vbar : ℕ := 124

/-- The horizontal-line glyph `b'-'`. -/
def hbar : ℕ := 45

/-- The frame buffer `[[u8; SCREEN_WIDTH]; SCREEN_HEIGHT]`, addressed as
`frame[row][column]`. -/
abbrev Frame : Type := Fin SCREEN_HEIGHT → Fin SCREEN_WIDTH → ℕ

/-- The all-background frame rebuilt at the start of every tick:
`let mut frame = [[b' '; SCREEN_WIDTH]; SCREEN_HEIGHT]`. -/
def blank_frame : Frame := fun _ _ => bg

/-- The indexed store `frame[iy][ix] = b`.  Rust panics when an index is out
of range; the embedding returns `none` there. -/
def setCell (fr : Frame) (iy ix b : ℕ) : Option Frame :=
  if iy < SCREEN_HEIGHT ∧ ix < SCREEN_WIDTH then
    some (fun r c => if (r : ℕ) = iy ∧ (c : ℕ) = ix then b else fr r c)
  else
    none

/-- Rust's saturating `expr as usize` cast of a float (for the magnitudes
arising here): truncation toward zero for nonnegative inputs, 0 for negative
ones — which is exactly `Int.toNat` of the floor. -/
def f32_as_usize {α : Type} [LinearOrderedField α] [FloorRing α] (x : α) : ℕ :=
  (⌊x⌋).toNat

/-- fn draw_line: slope-based axis-selected line rasterization.  When the
line is steeper than 45° it iterates rows `ceil(ymin)..ceil(ymax)` writing
`b'|'` at the interpolated column, otherwise it iterates columns
`ceil(xmin)..ceil(xmax)` writing `b'-'` at the interpolated row. -/
def draw_line {α : Type} [LinearOrderedField α] [FloorRing α]
    (frame : Frame) (p q : α × α) : Option Frame :=
  let x0 := p.1
  let y0 := p.2
  let x1 := q.1
  let y1 := q.2
  let dx := x1 - x0
  let dy := y1 - y0
  if |dy| > |dx| then
    let ymin := min y0 y1
    let ymax := max y0 y1
    let iymin := (⌈ymin⌉).toNat
    let iymax := (⌈ymax⌉).toNat
    let dxdy := dx / dy
    (List.range' iymin (iymax - iymin)).foldlM
      (fun fr2 (iy : ℕ) => setCell fr2 iy (f32_as_usize ((iy - y0) * dxdy + x0)) vbar)
      frame
  else
    let xmin := min x0 x1
    let xmax := max x0 x1
    let ixmin := (⌈xmin⌉).toNat
    let ixmax := (⌈xmax⌉).toNat
    let dydx := dy / dx
    (List.range' ixmin (ixmax - ixmin)).foldlM
      (fun fr2 (ix : ℕ) => setCell fr2 (f32_as_usize ((ix - x0) * dydx + y0)) ix hbar)
      frame

/-- fn cull: the screen-space winding test
`dx[0] * dy[1] > dx[1] * dy[0]` on three consecutive screen vertices. -/
def cull {α : Type} [LinearOrderedField α] (p0 p1 p2 : α × α) : Bool :=
  let dx0 := p1.1 - p0.1
  let dx1 := p2.1 - p1.1
  let dy0 := p1.2 - p0.2
  let dy1 := p2.2 - p1.2
  decide (dx0 * dy1 > dx1 * dy0)

/-- The cube_to_world matrix built each tick from `c = cos t`, `s = sin t`:
a rotation about the y axis whose last stored row translates by -2.5 along z. -/
def cube_to_world {α : Type} [LinearOrderedField α] (c s : α) : Matrix4 α :=
  mat4 (vec4 c 0 s 0)
       (vec4 0 1 0 0)
       (vec4 (-s) 0 c 0)
       (vec4 0 0 (-(5 / 2)) 1)

/-- The camera-space position of a cube vertex:
`let world_pos = matrix_times_vector(&cube_to_world, v)`. -/
def world_point {α : Type} [LinearOrderedField α] (c s : α) (i : Fin 8) : Vector4 α :=
  matrix_times_vector (cube_to_world c s) (VERTICES i)

/-- The projection step of the driver loop:
`recip_z = 1.0 / world_pos.0[2]`, then
`screen = (x * recip_z * SCALE_X + OFFSET_X, y * recip_z * SCALE_Y + OFFSET_Y)`. -/
def project {α : Type} [LinearOrderedField α] (wp : Vector4 α) : α × α :=
  let recip_z := 1 / wp 2
  (wp 0 * recip_z * SCALE_X + OFFSET_X, wp 1 * recip_z * SCALE_Y + OFFSET_Y)

/-- The screen position of vertex `i` at trig values `c`, `s`
(the contents of the `screen_pos` array in `main`). -/
def screen_pos {α : Type} [LinearOrderedField α] (c s : α) (i : Fin 8) : α × α :=
  project (world_point c s i)

/-- The inner edge loop of `main` for one face:
`end` starts at `face[3]`, and for each `start` in the face the edge
`screen_pos[start] → screen_pos[end]` is drawn, then `end = start`. -/
def draw_face {α : Type} [LinearOrderedField α] [FloorRing α]
    (sp : Fin 8 → α × α) (face : Fin 4 → Fin 8) (fr : Frame) : Option Frame :=
  ((List.finRange 4).foldlM
      (fun (st : Frame × Fin 8) i =>
        (draw_line st.1 (sp (face i)) (sp st.2)).map (fun f2 => (f2, face i)))
      (fr, face 3)).map Prod.fst

/-- One tick of the driver loop (without the terminal output): start from the
fresh all-background frame, and for each face run the cull test on its first
three screen vertices, drawing its four edges only when not culled. -/
def tick_frame {α : Type} [LinearOrderedField α] [FloorRing α] (c s : α) : Option Frame :=
  (List.finRange 6).foldlM
    (fun fr f =>
      if cull (screen_pos c s (FACES f 0)) (screen_pos c s (FACES f 1))
              (screen_pos c s (FACES f 2))
      then some fr
      else draw_face (screen_pos c s) (FACES f) fr)
    blank_frame

/-- The tick-to-angle map `let t = frame_number as f32 * 0.01`, extended to a
real-valued tick. -/
noncomputable def tick_angle (u : ℝ) : ℝ := u * (1 / 100)

/-- The screen positions of all 8 vertices as a function of the (real) tick. -/
noncomputable def screen_pos_at (u : ℝ) : Fin 8 → ℝ × ℝ :=
  screen_pos (Real.cos (tick_angle u)) (Real.sin (tick_angle u))

/-- The z component of the transformed position of vertex `i` at tick `n`
(the divisor of `recip_z` in the driver loop). -/
noncomputable def world_z (n : ℕ) (i : Fin 8) : ℝ :=
  world_point (Real.cos (tick_angle n)) (Real.sin (tick_angle n)) i 2

/-- The frame the driver renders at tick `n`. -/
noncomputable def frame_at (n : ℕ) : Option Frame :=
  tick_frame (Real.cos (tick_angle n)) (Real.sin (tick_angle n))

/-- The body of the infinite loop at tick `n`.  The binding
`let mut frame = [[b' '; SCREEN_WIDTH]; SCREEN_HEIGHT]` shadows anything from
the previous iteration, so the previously emitted frame is not read. -/
noncomputable def loop_body (_prev : Option Frame) (n : ℕ) : Option Frame :=
  frame_at n

/-- The sequence of frames emitted by `for frame_number in 0..`, threading the
previously emitted frame through to make the absence of cross-tick state an
explicit theorem. -/
noncomputable def loop_emit : ℕ → Option Frame
  | 0 => loop_body none 0
  | n + 1 => loop_body (loop_emit n) (n + 1)

/-- Cell values an emitted frame may hold: background or one of the two line
glyphs (trivially true for a panicked tick). -/
def cell_ok (o : Option Frame) (r : Fin SCREEN_HEIGHT) (c : Fin SCREEN_WIDTH) : Prop :=
  o.elim True (fun fr => fr r c = bg ∨ fr r c = vbar ∨ fr r c = hbar)

/-- At tick 0 the trig values are exactly `cos 0 = 1` and `sin 0 = 0` (exact
also in `f32`), so the tick-0 screen positions are computed over `ℚ`. -/
def screen_pos_zero : Fin 8 → ℚ × ℚ := screen_pos 1 0

/-- The number of faces whose cull test returns true at tick 0. -/
def culled_count_zero : ℕ :=
  ((List.finRange 6).filter
    (fun f => cull (screen_pos_zero (FACES f 0)) (screen_pos_zero (FACES f 1))
                   (screen_pos_zero (FACES f 2)))).length

/-- The number of faces drawn (cull test false) at tick 0. -/
def drawn_count_zero : ℕ :=
  ((List.finRange 6).filter
    (fun f => !cull (screen_pos_zero (FACES f 0)) (screen_pos_zero (FACES f 1))
                    (screen_pos_zero (FACES f 2)))).length

/- ------------------------------------------------------------------ -/
/- Helper lemmas                                                      -/
/- ------------------------------------------------------------------ -/

theorem vec4_at0 {α : Type} (x y z w : α) : vec4 x y z w 0 = x := rfl

theorem vec4_at1 {α : Type} (x y z w : α) : vec4 x y z w 1 = y := rfl

theorem vec4_at2 {α : Type} (x y z w : α) : vec4 x y z w 2 = z := rfl

theorem vec4_at3 {α : Type} (x y z w : α) : vec4 x y z w 3 = w := rfl

theorem mat4_at0 {α : Type} (r0 r1 r2 r3 : Vector4 α) : mat4 r0 r1 r2 r3 0 = r0 := rfl

theorem mat4_at1 {α : Type} (r0 r1 r2 r3 : Vector4 α) : mat4 r0 r1 r2 r3 1 = r1 := rfl

theorem mat4_at2 {α : Type} (r0 r1 r2 r3 : Vector4 α) : mat4 r0 r1 r2 r3 2 = r2 := rfl

theorem mat4_at3 {α : Type} (r0 r1 r2 r3 : Vector4 α) : mat4 r0 r1 r2 r3 3 = r3 := rfl

theorem VERTICES_at0 {α : Type} [LinearOrderedField α] :
    (VERTICES : Fin 8 → Vector4 α) 0 = vec4 (-1) (-1) (-1) 1 := rfl

theorem VERTICES_at1 {α : Type} [LinearOrderedField α] :
    (VERTICES : Fin 8 → Vector4 α) 1 = vec4 (-1) (-1) 1 1 := rfl

theorem VERTICES_at2 {α : Type} [LinearOrderedField α] :
    (VERTICES : Fin 8 → Vector4 α) 2 = vec4 1 (-1) (-1) 1 := rfl

theorem VERTICES_at3 {α : Type} [LinearOrderedField α] :
    (VERTICES : Fin 8 → Vector4 α) 3 = vec4 1 (-1) 1 1 := rfl

theorem VERTICES_at4 {α : Type} [LinearOrderedField α] :
    (VERTICES : Fin 8 → Vector4 α) 4 = vec4 (-1) 1 (-1) 1 := rfl

theorem VERTICES_at5 {α : Type} [LinearOrderedField α] :
    (VERTICES : Fin 8 → Vector4 α) 5 = vec4 (-1) 1 1 1 := rfl

theorem VERTICES_at6 {α : Type} [LinearOrderedField α] :
    (VERTICES : Fin 8 → Vector4 α) 6 = vec4 1 1 (-1) 1 := rfl

theorem VERTICES_at7 {α : Type} [LinearOrderedField α] :
    (VERTICES : Fin 8 → Vector4 α) 7 = vec4 1 1 1 1 := rfl

theorem VERTICES_atm0 {α : Type} [LinearOrderedField α] (h : (0 : ℕ) < 8) :
    (VERTICES : Fin 8 → Vector4 α) ⟨0, h⟩ = vec4 (-1) (-1) (-1) 1 := rfl

theorem VERTICES_atm1 {α : Type} [LinearOrderedField α] (h : (1 : ℕ) < 8) :
    (VERTICES : Fin 8 → Vector4 α) ⟨1, h⟩ = vec4 (-1) (-1) 1 1 := rfl

theorem VERTICES_atm2 {α : Type} [LinearOrderedField α] (h : (2 : ℕ) < 8) :
    (VERTICES : Fin 8 → Vector4 α) ⟨2, h⟩ = vec4 1 (-1) (-1) 1 := rfl

theorem VERTICES_atm3 {α : Type} [LinearOrderedField α] (h : (3 : ℕ) < 8) :
    (VERTICES : Fin 8 → Vector4 α) ⟨3, h⟩ = vec4 1 (-1) 1 1 := rfl

theorem VERTICES_atm4 {α : Type} [LinearOrderedField α] (h : (4 : ℕ) < 8) :
    (VERTICES : Fin 8 → Vector4 α) ⟨4, h⟩ = vec4 (-1) 1 (-1) 1 := rfl

theorem VERTICES_atm5 {α : Type} [LinearOrderedField α] (h : (5 : ℕ) < 8) :
    (VERTICES : Fin 8 → Vector4 α) ⟨5, h⟩ = vec4 (-1) 1 1 1 := rfl

theorem VERTICES_atm6 {α : Type} [LinearOrderedField α] (h : (6 : ℕ) < 8) :
    (VERTICES : Fin 8 → Vector4 α) ⟨6, h⟩ = vec4 1 1 (-1) 1 := rfl

theorem VERTICES_atm7 {α : Type} [LinearOrderedField α] (h : (7 : ℕ) < 8) :
    (VERTICES : Fin 8 → Vector4 α) ⟨7, h⟩ = vec4 1 1 1 1 := rfl

/-- Evaluates the screen position of one vertex at tick 0 over `ℚ`. -/
theorem screen_pos_zero_0 : screen_pos_zero 0 = (360 / 7, 180 / 7) := by
  norm_num [screen_pos_zero, screen_pos, project, world_point, matrix_times_vector,
    cube_to_world, VERTICES_at0, vec4_at0, vec4_at1, vec4_at2, vec4_at3,
    mat4_at0, mat4_at1, mat4_at2, mat4_at3, SCALE_X, SCALE_Y, OFFSET_X, OFFSET_Y,
    SCREEN_WIDTH, SCREEN_HEIGHT]

theorem screen_pos_zero_1 : screen_pos_zero 1 = (200 / 3, 100 / 3) := by
  norm_num [screen_pos_zero, screen_pos, project, world_point, matrix_times_vector,
    cube_to_world, VERTICES_at1, vec4_at0, vec4_at1, vec4_at2, vec4_at3,
    mat4_at0, mat4_at1, mat4_at2, mat4_at3, SCALE_X, SCALE_Y, OFFSET_X, OFFSET_Y,
    SCREEN_WIDTH, SCREEN_HEIGHT]

theorem screen_pos_zero_2 : screen_pos_zero 2 = (200 / 7, 180 / 7) := by
  norm_num [screen_pos_zero, screen_pos, project, world_point, matrix_times_vector,
    cube_to_world, VERTICES_at2, vec4_at0, vec4_at1, vec4_at2, vec4_at3,
    mat4_at0, mat4_at1, mat4_at2, mat4_at3, SCALE_X, SCALE_Y, OFFSET_X, OFFSET_Y,
    SCREEN_WIDTH, SCREEN_HEIGHT]

theorem screen_pos_zero_3 : screen_pos_zero 3 = (40 / 3, 100 / 3) := by
  norm_num [screen_pos_zero, screen_pos, project, world_point, matrix_times_vector,
    cube_to_world, VERTICES_at3, vec4_at0, vec4_at1, vec4_at2, vec4_at3,
    mat4_at0, mat4_at1, mat4_at2, mat4_at3, SCALE_X, SCALE_Y, OFFSET_X, OFFSET_Y,
    SCREEN_WIDTH, SCREEN_HEIGHT]

theorem screen_pos_zero_4 : screen_pos_zero 4 = (360 / 7, 100 / 7) := by
  norm_num [screen_pos_zero, screen_pos, project, world_point, matrix_times_vector,
    cube_to_world, VERTICES_at4, vec4_at0, vec4_at1, vec4_at2, vec4_at3,
    mat4_at0, mat4_at1, mat4_at2, mat4_at3, SCALE_X, SCALE_Y, OFFSET_X, OFFSET_Y,
    SCREEN_WIDTH, SCREEN_HEIGHT]

theorem screen_pos_zero_5 : screen_pos_zero 5 = (200 / 3, 20 / 3) := by
  norm_num [screen_pos_zero, screen_pos, project, world_point, matrix_times_vector,
    cube_to_world, VERTICES_at5, vec4_at0, vec4_at1, vec4_at2, vec4_at3,
    mat4_at0, mat4_at1, mat4_at2, mat4_at3, SCALE_X, SCALE_Y, OFFSET_X, OFFSET_Y,
    SCREEN_WIDTH, SCREEN_HEIGHT]

theorem screen_pos_zero_6 : screen_pos_zero 6 = (200 / 7, 100 / 7) := by
  norm_num [screen_pos_zero, screen_pos, project, world_point, matrix_times_vector,
    cube_to_world, VERTICES_at6, vec4_at0, vec4_at1, vec4_at2, vec4_at3,
    mat4_at0, mat4_at1, mat4_at2, mat4_at3, SCALE_X, SCALE_Y, OFFSET_X, OFFSET_Y,
    SCREEN_WIDTH, SCREEN_HEIGHT]

theorem screen_pos_zero_7 : screen_pos_zero 7 = (40 / 3, 20 / 3) := by
  norm_num [screen_pos_zero, screen_pos, project, world_point, matrix_times_vector,
    cube_to_world, VERTICES_at7, vec4_at0, vec4_at1, vec4_at2, vec4_at3,
    mat4_at0, mat4_at1, mat4_at2, mat4_at3, SCALE_X, SCALE_Y, OFFSET_X, OFFSET_Y,
    SCREEN_WIDTH, SCREEN_HEIGHT]

/-- Face [1,5,7,3] (the near face at tick 0) is not culled. -/
theorem cull_zero_face0 :
    cull (screen_pos_zero (FACES 0 0)) (screen_pos_zero (FACES 0 1))
         (screen_pos_zero (FACES 0 2)) = false := by
  show cull (screen_pos_zero 1) (screen_pos_zero 5) (screen_pos_zero 7) = false
  rw [screen_pos_zero_1, screen_pos_zero_5, screen_pos_zero_7]
  simp only [cull, decide_eq_false_iff_not]
  norm_num

/-- Face [3,7,6,2] is culled at tick 0. -/
theorem cull_zero_face1 :
    cull (screen_pos_zero (FACES 1 0)) (screen_pos_zero (FACES 1 1))
         (screen_pos_zero (FACES 1 2)) = true := by
  show cull (screen_pos_zero 3) (screen_pos_zero 7) (screen_pos_zero 6) = true
  rw [screen_pos_zero_3, screen_pos_zero_7, screen_pos_zero_6]
  simp only [cull, decide_eq_true_eq]
  norm_num

/-- Face [0,4,5,1] is culled at tick 0. -/
theorem cull_zero_face2 :
    cull (screen_pos_zero (FACES 2 0)) (screen_pos_zero (FACES 2 1))
         (screen_pos_zero (FACES 2 2)) = true := by
  show cull (screen_pos_zero 0) (screen_pos_zero 4) (screen_pos_zero 5) = true
  rw [screen_pos_zero_0, screen_pos_zero_4, screen_pos_zero_5]
  simp only [cull, decide_eq_true_eq]
  norm_num

/-- Face [2,6,4,0] is culled at tick 0. -/
theorem cull_zero_face3 :
    cull (screen_pos_zero (FACES 3 0)) (screen_pos_zero (FACES 3 1))
         (screen_pos_zero (FACES 3 2)) = true := by
  show cull (screen_pos_zero 2) (screen_pos_zero 6) (screen_pos_zero 4) = true
  rw [screen_pos_zero_2, screen_pos_zero_6, screen_pos_zero_4]
  simp only [cull, decide_eq_true_eq]
  norm_num

/-- Face [0,1,3,2] is culled at tick 0. -/
theorem cull_zero_face4 :
    cull (screen_pos_zero (FACES 4 0)) (screen_pos_zero (FACES 4 1))
         (screen_pos_zero (FACES 4 2)) = true := by
  show cull (screen_pos_zero 0) (screen_pos_zero 1) (screen_pos_zero 3) = true
  rw [screen_pos_zero_0, screen_pos_zero_1, screen_pos_zero_3]
  simp only [cull, decide_eq_true_eq]
  norm_num

/-- Face [5,4,6,7] is culled at tick 0. -/
theorem cull_zero_face5 :
    cull (screen_pos_zero (FACES 5 0)) (screen_pos_zero (FACES 5 1))
         (screen_pos_zero (FACES 5 2)) = true := by
  show cull (screen_pos_zero 5) (screen_pos_zero 4) (screen_pos_zero 6) = true
  rw [screen_pos_zero_5, screen_pos_zero_4, screen_pos_zero_6]
  simp only [cull, decide_eq_true_eq]
  norm_num

/-- Exactly 5 of the 6 faces are culled at tick 0. -/
theorem culled_count_zero_eq : culled_count_zero = 5 := by
  have hfin : List.finRange 6 = [0, 1, 2, 3, 4, 5] := rfl
  rw [culled_count_zero, hfin]
  simp only [List.filter_cons, List.filter_nil, cull_zero_face0, cull_zero_face1,
    cull_zero_face2, cull_zero_face3, cull_zero_face4, cull_zero_face5]
  rfl

/-- Exactly 1 of the 6 faces is drawn at tick 0. -/
theorem drawn_count_zero_eq : drawn_count_zero = 1 := by
  have hfin : List.finRange 6 = [0, 1, 2, 3, 4, 5] := rfl
  rw [drawn_count_zero, hfin]
  simp only [List.filter_cons, List.filter_nil, cull_zero_face0, cull_zero_face1,
    cull_zero_face2, cull_zero_face3, cull_zero_face4, cull_zero_face5,
    Bool.not_true, Bool.not_false]
  rfl

/-- A zero-length segment takes the shallow branch and its iteration range is
empty, so the frame comes back unchanged. -/
theorem draw_line_self {α : Type} [LinearOrderedField α] [FloorRing α]
    (fr : Frame) (p : α × α) : draw_line fr p p = some fr := by
  unfold draw_line
  simp

/-- Folding a fallible step that preserves a predicate on the cells of the
frame component of the state preserves it across the whole fold. -/
theorem foldlM_cell_pred {σ β : Type} (π : σ → Frame) (P : ℕ → Prop)
    (g : σ → β → Option σ)
    (hg : ∀ st x st', g st x = some st' →
      (∀ r c, P (π st r c)) → ∀ r c, P (π st' r c)) :
    ∀ (l : List β) (st st' : σ), l.foldlM g st = some st' →
      (∀ r c, P (π st r c)) → ∀ r c, P (π st' r c) := by
  intro l
  induction l with
  | nil =>
    intro st st' h hst
    simp only [List.foldlM_nil, Option.pure_def, Option.some.injEq] at h
    exact h ▸ hst
  | cons x xs ih =>
    intro st st' h hst
    rw [List.foldlM_cons] at h
    cases hgx : g st x with
    | none =>
      rw [hgx] at h
      simp at h
    | some s1 =>
      rw [hgx] at h
      simp only [Option.bind_eq_bind, Option.some_bind] at h
      exact ih s1 st' h (hg st x s1 hgx hst)

/-- A successful `setCell` only writes the byte `b`; every cell of the result
satisfies any predicate holding for `b` and for all cells of the input. -/
theorem setCell_pred {P : ℕ → Prop} {fr fr' : Frame} {iy ix b : ℕ}
    (hb : P b) (hfr : ∀ r c, P (fr r c)) (h : setCell fr iy ix b = some fr') :
    ∀ r c, P (fr' r c) := by
  unfold setCell at h
  split_ifs at h
  simp only [Option.some.injEq] at h
  subst h
  intro r c
  dsimp only
  split_ifs
  · exact hb
  · exact hfr r c

/-- A successful `draw_line` writes only the two line glyphs. -/
theorem draw_line_pred {α : Type} [LinearOrderedField α] [FloorRing α]
    {P : ℕ → Prop} (hv : P vbar) (hh : P hbar) {fr fr' : Frame} {p q : α × α}
    (h : draw_line fr p q = some fr') (hfr : ∀ r c, P (fr r c)) :
    ∀ r c, P (fr' r c) := by
  unfold draw_line at h
  dsimp only at h
  split_ifs at h
  · exact foldlM_cell_pred (fun st => st) P _
      (fun st x st' hs hst => setCell_pred hv hst hs) _ fr fr' h hfr
  · exact foldlM_cell_pred (fun st => st) P _
      (fun st x st' hs hst => setCell_pred hh hst hs) _ fr fr' h hfr

/-- A successful `draw_face` writes only the two line glyphs. -/
theorem draw_face_pred {α : Type} [LinearOrderedField α] [FloorRing α]
    {P : ℕ → Prop} (hv : P vbar) (hh : P hbar)
    {sp : Fin 8 → α × α} {face : Fin 4 → Fin 8} {fr fr' : Frame}
    (h : draw_face sp face fr = some fr') (hfr : ∀ r c, P (fr r c)) :
    ∀ r c, P (fr' r c) := by
  unfold draw_face at h
  obtain ⟨st2, hfold, hfst⟩ := Option.map_eq_some'.mp h
  have hmain : ∀ r c, P (st2.1 r c) := by
    refine foldlM_cell_pred Prod.fst P _ ?_ _ (fr, face 3) st2 hfold hfr
    intro st x st' hs hst
    obtain ⟨f2, hdl, hpair⟩ := Option.map_eq_some'.mp hs
    have : st'.1 = f2 := by rw [← hpair]
    rw [this]
    exact draw_line_pred hv hh hdl hst
  rw [← hfst]
  exact hmain

/-- A successfully rendered tick frame holds only background bytes and the
two line glyphs. -/
theorem tick_frame_cells {α : Type} [LinearOrderedField α] [FloorRing α]
    {P : ℕ → Prop} (hbg : P bg) (hv : P vbar) (hh : P hbar)
    {c s : α} {fr : Frame} (h : tick_frame c s = some fr) :
    ∀ r cc, P (fr r cc) := by
  unfold tick_frame at h
  refine foldlM_cell_pred (fun st => st) P _ ?_ _ blank_frame fr h
    (fun r cc => hbg)
  intro st f st' hs hst
  split_ifs at hs
  · simp only [Option.some.injEq] at hs
    exact hs ▸ hst
  · exact draw_face_pred hv hh hs hst

/- ------------------------------------------------------------------ -/
/- Claims                                                             -/
/- ------------------------------------------------------------------ -/

/-- Claim C5: `matrix_times_vector` returns the vector whose k-th component is
`v.x * m.row0[k] + v.y * m.row1[k] + v.z * m.row2[k] + v.w * m.row3[k]`; the
vector components weight the stored rows, i.e. the stored matrix acts as the
transpose-side multiplication `v ᵥ* M` (each stored row is a column of the
conceptual transform). -/
theorem claim_C5 (m : Matrix4 ℚ) (v : Vector4 ℚ) :
    (∀ k : Fin 4, matrix_times_vector m v k
        = v 0 * m 0 k + v 1 * m 1 k + v 2 * m 2 k + v 3 * m 3 k)
    ∧ matrix_times_vector m v = Matrix.vecMul v (Matrix.of fun i j => m i j) := by
  refine ⟨fun k => rfl, ?_⟩
  funext k
  simp [matrix_times_vector, Matrix.vecMul, Matrix.dotProduct, Fin.sum_univ_four]

/-- Claim C6: with `z ≠ 0`, the projection step produces
`(x * (1/z) * SCALE_X + OFFSET_X, y * (1/z) * SCALE_Y + OFFSET_Y)`, where the
scales are half the grid dimensions and the offsets the grid center. -/
theorem claim_C6 (p : Vector4 ℚ) (hz : p 2 ≠ 0) :
    project p = (p 0 * (1 / p 2) * SCALE_X + OFFSET_X,
                 p 1 * (1 / p 2) * SCALE_Y + OFFSET_Y)
    ∧ SCALE_X = (SCREEN_WIDTH : ℚ) / 2 ∧ OFFSET_X = (SCREEN_WIDTH : ℚ) / 2
    ∧ SCALE_Y = (SCREEN_HEIGHT : ℚ) / 2 ∧ OFFSET_Y = (SCREEN_HEIGHT : ℚ) / 2 := by
  refine ⟨rfl, ?_, ?_, ?_, ?_⟩ <;>
    norm_num [SCALE_X, SCALE_Y, OFFSET_X, OFFSET_Y, SCREEN_WIDTH, SCREEN_HEIGHT]

/-- Witness for claim C6 at the transformed tick-0 vertex (-1, -1, -7/2, 1). -/
theorem claim_C6_witness :
    (vec4 (-1 : ℚ) (-1) (-(7 / 2)) 1) 2 ≠ 0
    ∧ project (vec4 (-1 : ℚ) (-1) (-(7 / 2)) 1)
        = ((-1 : ℚ) * (1 / (-(7 / 2))) * SCALE_X + OFFSET_X,
           (-1 : ℚ) * (1 / (-(7 / 2))) * SCALE_Y + OFFSET_Y) :=
  ⟨by norm_num [vec4_at2], ((claim_C6 (vec4 (-1 : ℚ) (-1) (-(7 / 2)) 1) (by norm_num [vec4_at2])).1)⟩

/-- Claim C7: drawing a line whose two endpoints coincide takes the shallow
branch, iterates over an empty range, and leaves the frame exactly unchanged. -/
theorem claim_C7 (fr : Frame) (p : ℚ × ℚ) : draw_line fr p p = some fr :=
  draw_line_self fr p

/-- Claim C1 (counterexample to the claim as stated): at tick 0 the cull test
does not return true for exactly 3 of the 6 faces — the culled count is 5. -/
theorem claim_C1_counterexample : ¬(culled_count_zero = 3) := by
  rw [culled_count_zero_eq]
  norm_num

/-- Claim C1 (amended): at tick 0 (angle 0, so the trig values are exactly 1
and 0), the driver projects vertex (-1,-1,-1,1) to exactly
((-1)/(-3.5)*40 + 40, (-1)/(-3.5)*20 + 20), and the cull test returns true
for exactly 5 of the 6 faces while the other 1 face is drawn. -/
theorem claim_C1 :
    screen_pos_zero 0 = ((-1 : ℚ) / (-3.5) * 40 + 40, (-1 : ℚ) / (-3.5) * 20 + 20)
    ∧ culled_count_zero = 5 ∧ drawn_count_zero = 1 := by
  refine ⟨?_, culled_count_zero_eq, drawn_count_zero_eq⟩
  rw [screen_pos_zero_0]
  norm_num

/-- Claim C3: drawing the purely vertical segment from (5,2) to (5,8) on the
all-background frame marks exactly the cells in rows 2..7 (the half-open
range from ceil 2 to ceil 8) of column 5 with `b'|'`, leaving every other
cell at the background byte. -/
theorem claim_C3 :
    draw_line blank_frame ((5 : ℚ), 2) ((5 : ℚ), 8)
      = some (fun (r : Fin SCREEN_HEIGHT) (c : Fin SCREEN_WIDTH) =>
          if (c : ℕ) = 5 ∧ 2 ≤ (r : ℕ) ∧ (r : ℕ) < 8 then vbar else bg) := by
  have hcond : |(8 : ℚ) - 2| > |(5 : ℚ) - 5| := by norm_num
  have hmin : ((⌈min (2 : ℚ) 8⌉).toNat : ℕ) = 2 := by norm_num; rfl
  have hmax : ((⌈max (2 : ℚ) 8⌉).toNat : ℕ) = 8 := by norm_num; rfl
  have hq : ((5 : ℚ) - 5) / ((8 : ℚ) - 2) = 0 := by norm_num
  have h5 : f32_as_usize (5 : ℚ) = 5 := by norm_num [f32_as_usize]; rfl
  simp only [draw_line]
  rw [if_pos hcond, hmin, hmax]
  simp only [hq, mul_zero, zero_add, h5]
  have hr : List.range' 2 (8 - 2) = [2, 3, 4, 5, 6, 7] := rfl
  rw [hr]
  simp only [List.foldlM_cons, List.foldlM_nil, setCell, SCREEN_WIDTH, SCREEN_HEIGHT]
  norm_num
  funext r c
  simp only [blank_frame]
  split_ifs <;> first | rfl | omega

/-- Claim C2: for every frame number, every transformed cube vertex has a z
component at most -1/2 — strictly negative, nonzero, and bounded away from
zero — so `recip_z = 1 / z` never divides by zero. -/
theorem claim_C2 (n : ℕ) (i : Fin 8) :
    world_z n i ≤ -(1 / 2) ∧ world_z n i < 0 ∧ world_z n i ≠ 0 := by
  have hs1 := Real.neg_one_le_sin (tick_angle n)
  have hs2 := Real.sin_le_one (tick_angle n)
  have hc1 := Real.neg_one_le_cos (tick_angle n)
  have hc2 := Real.cos_le_one (tick_angle n)
  have key : world_z n i ≤ -(1 / 2) := by
    fin_cases i <;>
      simp only [world_z, world_point, matrix_times_vector, cube_to_world,
        Fin.isValue, VERTICES_atm0, VERTICES_atm1, VERTICES_atm2, VERTICES_atm3,
        VERTICES_atm4, VERTICES_atm5, VERTICES_atm6, VERTICES_atm7, vec4_at0,
        vec4_at1, vec4_at2, vec4_at3, mat4_at0, mat4_at1, mat4_at2, mat4_at3] <;>
      linarith
  have hneg : world_z n i < 0 := lt_of_le_of_lt key (by norm_num)
  exact ⟨key, hneg, ne_of_lt hneg⟩

/-- Claim C8: the screen positions of all 8 vertices are periodic in the tick
with period 2π / 0.01: at tick u and tick u + 2π/0.01 every vertex projects
to the same screen coordinates (exactly, in the real-number model). -/
theorem claim_C8 (u : ℝ) (i : Fin 8) :
    screen_pos_at (u + 2 * Real.pi / (1 / 100)) i = screen_pos_at u i := by
  have harg : tick_angle (u + 2 * Real.pi / (1 / 100)) = tick_angle u + 2 * Real.pi := by
    simp only [tick_angle]
    ring
  simp only [screen_pos_at, harg, Real.cos_add_two_pi, Real.sin_add_two_pi]

/-- Claim C4: a zero cross product means not culled in both winding orders,
and a nonzero cross product means reversing the winding order flips the cull
decision. -/
theorem claim_C4 (p0 p1 p2 : ℚ × ℚ) :
    ((p1.1 - p0.1) * (p2.2 - p1.2) - (p2.1 - p1.1) * (p1.2 - p0.2) = 0 →
      cull p0 p1 p2 = false ∧ cull p2 p1 p0 = false)
    ∧ ((p1.1 - p0.1) * (p2.2 - p1.2) - (p2.1 - p1.1) * (p1.2 - p0.2) ≠ 0 →
      cull p2 p1 p0 = !cull p0 p1 p2) := by
  have hrev : (p1.1 - p2.1) * (p0.2 - p1.2) = (p2.1 - p1.1) * (p1.2 - p0.2) := by ring
  have hrev2 : (p0.1 - p1.1) * (p1.2 - p2.2) = (p1.1 - p0.1) * (p2.2 - p1.2) := by ring
  constructor
  · intro h
    have he : (p1.1 - p0.1) * (p2.2 - p1.2) = (p2.1 - p1.1) * (p1.2 - p0.2) := by linarith
    constructor
    · simp only [cull, decide_eq_false_iff_not, not_lt]
      exact le_of_eq he
    · simp only [cull, decide_eq_false_iff_not, not_lt, hrev, hrev2]
      exact le_of_eq he.symm
  · intro h
    have hne : (p1.1 - p0.1) * (p2.2 - p1.2) ≠ (p2.1 - p1.1) * (p1.2 - p0.2) :=
      fun he => h (by linarith)
    rcases hne.lt_or_lt with hlt | hlt
    · simp only [cull, hrev, hrev2]
      rw [decide_eq_true (by exact hlt), decide_eq_false (by exact not_lt.mpr hlt.le)]
      rfl
    · simp only [cull, hrev, hrev2]
      rw [decide_eq_false (by exact not_lt.mpr hlt.le), decide_eq_true (by exact hlt)]
      rfl

/-- Witness for claim C4: the collinear triple (0,0), (1,1), (2,2) is not
culled in either order, and the right-angle triple (0,0), (1,0), (1,1) has
opposite cull decisions in the two orders. -/
theorem claim_C4_witness :
    (cull ((0 : ℚ), 0) (1, 1) (2, 2) = false ∧ cull ((2 : ℚ), 2) (1, 1) (0, 0) = false)
    ∧ cull ((1 : ℚ), 1) (1, 0) (0, 0) = !cull ((0 : ℚ), 0) (1, 0) (1, 1) :=
  ⟨(claim_C4 (0, 0) (1, 1) (2, 2)).1 (by norm_num),
   (claim_C4 (0, 0) (1, 0) (1, 1)).2 (by norm_num)⟩

/-- Claim C9: in the shallow branch the divisor `dx` can be zero only when
`dy` is zero as well, and then the iteration range is empty and the frame is
returned unchanged (the quotient is never used to index a cell); in the steep
branch the divisor `dy` is never zero. -/
theorem claim_C9 (fr : Frame) (p q : ℚ × ℚ) :
    (¬(|q.2 - p.2| > |q.1 - p.1|) → q.1 - p.1 = 0 →
      q.2 - p.2 = 0 ∧ draw_line fr p q = some fr)
    ∧ ((|q.2 - p.2| > |q.1 - p.1|) → q.2 - p.2 ≠ 0) := by
  constructor
  · intro hbr hdx
    have hdy : q.2 - p.2 = 0 := by
      have h1 : |q.2 - p.2| ≤ |q.1 - p.1| := not_lt.mp hbr
      have h2 : |q.1 - p.1| = 0 := by rw [hdx, abs_zero]
      have h3 : |q.2 - p.2| ≤ 0 := h2 ▸ h1
      exact abs_eq_zero.mp (le_antisymm h3 (abs_nonneg _))
    have hq : q = p := by
      have h1 : q.1 = p.1 := by linarith [sub_eq_zero.mp hdx]
      have h2 : q.2 = p.2 := by linarith [sub_eq_zero.mp hdy]
      exact Prod.ext h1 h2
    exact ⟨hdy, hq ▸ draw_line_self fr p⟩
  · intro hbr hdy
    rw [hdy, abs_zero] at hbr
    exact absurd hbr (not_lt.mpr (abs_nonneg _))

/-- Claim C10: the frame emitted at tick n is a pure function of n alone —
the loop body ignores the previously emitted frame, the emitted frame is
exactly the one rendered fresh from the all-background buffer at tick n, and
every cell of an emitted frame is the background byte or a glyph written this
tick (no stale content can survive into a later frame). -/
theorem claim_C10 (n : ℕ) :
    (∀ p p' : Option Frame, loop_body p n = loop_body p' n)
    ∧ loop_emit n = frame_at n
    ∧ ∀ r c, cell_ok (loop_emit n) r c := by
  have h2 : loop_emit n = frame_at n := by cases n <;> rfl
  refine ⟨fun p p' => rfl, h2, ?_⟩
  intro r c
  rw [h2]
  cases hf : frame_at n with
  | none => simp [cell_ok]
  | some fr =>
    simp only [cell_ok, Option.elim]
    have hf' : tick_frame (Real.cos (tick_angle n)) (Real.sin (tick_angle n))
        = some fr := hf
    have hcells : ∀ r cc, fr r cc = bg ∨ fr r cc = vbar ∨ fr r cc = hbar :=
      tick_frame_cells (P := fun b => b = bg ∨ b = vbar ∨ b = hbar)
        (Or.inl rfl) (Or.inr (Or.inl rfl)) (Or.inr (Or.inr rfl)) hf'
    exact hcells r c

/-- Witness for claim C9: a zero-length segment at the origin for the shallow
part, and the unit vertical segment for the steep part. -/
theorem claim_C9_witness :
    (¬(|(0 : ℚ) - 0| > |(0 : ℚ) - 0|)
      ∧ ((0 : ℚ) - 0 = 0 ∧ draw_line blank_frame ((0 : ℚ), 0) (0, 0) = some blank_frame))
    ∧ (|(1 : ℚ) - 0| > |(0 : ℚ) - 0| ∧ (1 : ℚ) - 0 ≠ 0) :=
  ⟨⟨by norm_num, (claim_C9 blank_frame (0, 0) (0, 0)).1 (by norm_num) (by norm_num)⟩,
   ⟨by norm_num, (claim_C9 blank_frame (0, 0) (0, 1)).2 (by norm_num)⟩⟩

end SpinCube
